import Mathlib

set_option maxRecDepth 10000

/-!
Verification of the preflop-trainer core against its specification.

The Python sources are shallowly embedded:
* `src/core/handgrid.py`  — hand-key / grid-coordinate conversions,
* `src/core/expected_action.py` — tag → expected-action resolver,
* `src/json_range_repository.py` — range repository (tag lookup, grid view,
  card canonicalization),
* `src/juego_judge.py` — per-kind judges,
* `src/core/engine.py` — two-stage submit state machine.

Functions that raise in Python are embedded with `Option`/`Except`; Python
`float` sizes are embedded as `ℚ` (every size involved is an exact decimal).
Python string primitives (`strip`, `upper`, `lower`, `replace`, `startswith`,
`endswith`, `in`) are embedded as executable character-list operations below,
because Lean's built-in `String.trim`/`String.toUpper` do not reduce in the
kernel.
-/

namespace PreflopTrainer

/-! ### Python string primitives -/

/-- Python `str.strip()` (drop leading and trailing whitespace). -/
def listStrip (l : List Char) : List Char :=
  ((l.dropWhile Char.isWhitespace).reverse.dropWhile Char.isWhitespace).reverse

/-- Python `s.strip()`. -/
def pystrip (s : String) : String := String.mk (listStrip s.toList)

/-- Python `s.upper()`. -/
def pyupper (s : String) : String := String.mk (s.toList.map Char.toUpper)

/-- Python `s.lower()`. -/
def pylower (s : String) : String := String.mk (s.toList.map Char.toLower)

/-- Python `s.replace(" ", "")` (used by `_normalize_hand_to_key`). -/
def pyremove_spaces (s : String) : String :=
  String.mk (s.toList.filter (fun c => c ≠ ' '))

/-- Python `s.replace(NBSP, " ")` where NBSP is U+00A0 (used by `_norm_ws` in juego_judge.py). -/
def pyreplace_nbsp (s : String) : String :=
  String.mk (s.toList.map (fun c => if c = '\u00A0' then ' ' else c))

/-- Python `s.startswith(pre)`. -/
def pystartswith (s pre : String) : Bool := pre.toList.isPrefixOf s.toList

/-- Python `s.endswith(suf)`. -/
def pyendswith (s suf : String) : Bool := suf.toList.isSuffixOf s.toList

/-- Helper for Python `sub in s` on lists. -/
def listContainsSub (pat : List Char) : List Char → Bool
  | [] => pat.isEmpty
  | c :: t => pat.isPrefixOf (c :: t) || listContainsSub pat t

/-- Python `sub in s` (substring containment). -/
def pycontains (s sub : String) : Bool := listContainsSub sub.toList s.toList

/-- Python `s[:n]` for strings. -/
def pytake (s : String) (n : Nat) : String := String.mk (s.toList.take n)

/-- Python `s[n:]` for strings. -/
def pydrop (s : String) (n : Nat) : String := String.mk (s.toList.drop n)

/-- Python `s[:-1]` (used by `_parse_limp_tag_to_max_bb`). -/
def pydroplast (s : String) : String := String.mk (s.toList.dropLast)

/-- Python `len(s)`. -/
def pylen (s : String) : Nat := s.toList.length

/-! ### HandGrid (src/core/handgrid.py) -/

/-- Rank alphabet, strongest first (`RANKS` in handgrid.py). -/
def RANKS : List Char := ['A', 'K', 'Q', 'J', 'T', '9', '8', '7', '6', '5', '4', '3', '2']

/-- `_idx` in handgrid.py: index of a rank character, `none` for the raise. -/
def rank_idx (c : Char) : Option Nat :=
  RANKS.indexOf? c.toUpper

/-- `hand_key_to_rc` in handgrid.py.  Returns `none` where Python raises
`ValueError`. -/
def hand_key_to_rc (hand_key : String) : Option (Nat × Nat) :=
  let hk := pyupper (pystrip hand_key)
  match hk.toList with
  | [a, b] =>
      if a = b then (rank_idx a).map (fun i => (i, i)) else none
  | [a, b, t] =>
      match rank_idx a, rank_idx b with
      | some i1, some i2 =>
          if i1 = i2 then none
          else
            let hi := min i1 i2
            let lo := max i1 i2
            if t = 'S' then some (hi, lo)
            else if t = 'O' then some (lo, hi)
            else none
      | _, _ => none
  | _ => none

/-- `rc_to_hand_key` in handgrid.py.  Returns `none` where Python raises
(out-of-range coordinates; Python also rejects negative input, which `Nat`
has none of). -/
def rc_to_hand_key (r c : Nat) : Option String :=
  if r < 13 ∧ c < 13 then
    if r = c then
      some (String.mk [RANKS.getD r ' ', RANKS.getD c ' '])
    else
      let hi := min r c
      let lo := max r c
      some (String.mk [RANKS.getD hi ' ', RANKS.getD lo ' ', if r < c then 'S' else 'O'])
  else none

/-- The 169 canonical hand keys of the data model (§3 of the spec): 13 pairs,
78 suited keys (stronger rank first, suffix `S`), 78 offsuit keys (suffix
`O`). -/
def allHandKeys : List String :=
  (List.range 13).flatMap (fun i =>
    (List.range 13).map (fun j =>
      if i = j then String.mk [RANKS.getD i ' ', RANKS.getD j ' ']
      else if i < j then String.mk [RANKS.getD i ' ', RANKS.getD j ' ', 'S']
      else String.mk [RANKS.getD j ' ', RANKS.getD i ' ', 'O']))

/-- C3: `hand_key_to_rc` and `rc_to_hand_key` are mutual inverses between the
169 canonical hand keys and the 13×13 grid; the diagonal holds pairs, the
upper triangle (`row < col`) suited keys and the lower triangle offsuit
keys. -/
theorem C3_handgrid_bijection :
    (∀ r c : Nat, r ≤ 12 → c ≤ 12 →
      ((rc_to_hand_key r c).bind hand_key_to_rc = some (r, c)
        ∧ (r = c → pylen ((rc_to_hand_key r c).getD "") = 2
            ∧ ((rc_to_hand_key r c).getD "").toList.getD 0 ' '
              = ((rc_to_hand_key r c).getD "").toList.getD 1 ' ')
        ∧ (r < c → pyendswith ((rc_to_hand_key r c).getD "") "S" = true)
        ∧ (c < r → pyendswith ((rc_to_hand_key r c).getD "") "O" = true)))
    ∧ (allHandKeys.length = 169 ∧ allHandKeys.Nodup)
    ∧ (∀ h ∈ allHandKeys,
        (hand_key_to_rc h).bind (fun p => rc_to_hand_key p.1 p.2) = some h) := by
  refine ⟨?_, by decide, by decide⟩
  have key : ∀ r, r < 13 → ∀ c, c < 13 →
      ((rc_to_hand_key r c).bind hand_key_to_rc = some (r, c)
        ∧ (r = c → pylen ((rc_to_hand_key r c).getD "") = 2
            ∧ ((rc_to_hand_key r c).getD "").toList.getD 0 ' '
              = ((rc_to_hand_key r c).getD "").toList.getD 1 ' ')
        ∧ (r < c → pyendswith ((rc_to_hand_key r c).getD "") "S" = true)
        ∧ (c < r → pyendswith ((rc_to_hand_key r c).getD "") "O" = true)) := by decide
  intro r c hr hc
  exact key r (Nat.lt_succ_of_le hr) c (Nat.lt_succ_of_le hc)

/-- Witness for C3 at the concrete cell (0, 1) (the hand "AKS"). -/
theorem C3_handgrid_bijection_witness :
    (rc_to_hand_key 0 1).bind hand_key_to_rc = some (0, 1)
      ∧ ((0 : Nat) = 1 → pylen ((rc_to_hand_key 0 1).getD "") = 2
          ∧ ((rc_to_hand_key 0 1).getD "").toList.getD 0 ' '
            = ((rc_to_hand_key 0 1).getD "").toList.getD 1 ' ')
      ∧ ((0 : Nat) < 1 → pyendswith ((rc_to_hand_key 0 1).getD "") "S" = true)
      ∧ ((1 : Nat) < 0 → pyendswith ((rc_to_hand_key 0 1).getD "") "O" = true) :=
  C3_handgrid_bijection.1 0 1 (by norm_num) (by norm_num)

/-! ### Expected-action data model and resolver (src/core/expected_action.py)

`src/core/expected_action.py` imports `Action`, `ExpectedAction` and
`ProblemContext` from `core.models`, but the `models.py` under `src/` does
not contain those three declarations.  They are plain data carriers; their
shape below follows the spec (§3, "ExpectedAction", "ProblemContext") and the
constructor keywords used by `resolve_expected_action` and its test suite. -/

/-- Modelled from the spec: the action vocabulary of `ExpectedAction`
(`Action` is missing from `src/core/models.py`). -/
inductive Action
  | FOLD
  | RAISE
  | CALL
  | CHECK
  | LIMP
deriving DecidableEq, Repr

/-- Modelled from the spec: per-question situational context
(`ProblemContext` is missing from `src/core/models.py`). -/
structure ProblemContext where
  position : String
  loose_player_exists : Bool
  bb_vs_sb : Bool
  open_size_bb : ℚ
deriving DecidableEq, Repr

/-- Modelled from the spec: the resolver result
(`ExpectedAction` is missing from `src/core/models.py`; field names and
defaults follow the keywords used in `resolve_expected_action`). -/
structure ExpectedAction where
  action : Action
  size_bb : Option ℚ := none
  followup_required : Bool := false
  followup_expected_action : Option Action := none
deriving DecidableEq, Repr

/-- Alias used by the test suite (`requires_followup`). -/
def ExpectedAction.requires_followup (e : ExpectedAction) : Bool :=
  e.followup_required

/-- `_OR_OPEN_SIZE_BY_POSITION` in expected_action.py. -/
def OR_OPEN_SIZE_BY_POSITION : List (String × ℚ) :=
  [("EP", 3.0), ("MP", 3.0), ("CO", 3.0), ("BTN", 2.5), ("SB", 3.0)]

/-- `_SB_LIMP_THRESHOLD_BY_TAG` in expected_action.py. -/
def SB_LIMP_THRESHOLD_BY_TAG : List (String × ℚ) :=
  [("SB_LIMP_CALL_LE_3BB", 3.0),
   ("SB_LIMP_CALL_LE_2_5BB", 2.5),
   ("SB_LIMP_CALL_LE_2_25BB", 2.25),
   ("SB_LIMP_CALL_LE_2BB", 2.0)]

/-- `resolve_expected_action` in expected_action.py. -/
def resolve_expected_action (tag : String) (ctx : ProblemContext) : ExpectedAction :=
  let t := pyupper (pystrip tag)
  let pos := pyupper (pystrip ctx.position)
  if t = "FOLD" then { action := .FOLD }
  else if t = "OPEN_RAISE" then
    { action := .RAISE, size_bb := some ((OR_OPEN_SIZE_BY_POSITION.lookup pos).getD 3.0) }
  else if t = "OPEN_RAISE_IF_FISH" then
    if ctx.loose_player_exists then
      { action := .RAISE, size_bb := some ((OR_OPEN_SIZE_BY_POSITION.lookup pos).getD 3.0) }
    else { action := .FOLD }
  else if t = "OPEN_FOLD" then { action := .FOLD }
  else if t = "SB_OPEN_RAISE_3BB" then { action := .RAISE, size_bb := some 3.0 }
  else match SB_LIMP_THRESHOLD_BY_TAG.lookup t with
  | some bb => { action := .LIMP, size_bb := some bb, followup_required := true }
  | none =>
  if t = "ROL_CALL" then { action := .CALL }
  else if t = "ROL_RAISE_4BB__BB_VS_SB" then
    if ctx.bb_vs_sb then { action := .RAISE, size_bb := some 4.0 }
    else { action := .CALL }
  else if t = "ROL_CALL__VS_FISH" then
    if ctx.loose_player_exists then { action := .CALL } else { action := .FOLD }
  else if t = "ROL_FOLD__NO_FISH" then { action := .FOLD }
  else if t = "OVERLIMP_CALL" then { action := .CALL }
  else if t = "OVERLIMP_CHECK__BB_VS_SB" then
    if ctx.bb_vs_sb then { action := .CHECK } else { action := .CALL }
  else if pystartswith t "3BET_VS_4BET_" then
    if t = "3BET_VS_4BET_SHOVE" then
      { action := .RAISE, followup_expected_action := some .RAISE, followup_required := true }
    else if t = "3BET_VS_4BET_CALL" then
      { action := .RAISE, followup_expected_action := some .CALL, followup_required := true }
    else if t = "3BET_VS_4BET_FOLD" then
      { action := .RAISE, followup_expected_action := some .FOLD, followup_required := true }
    else if t = "3BET_VS_4BET_CALL_SITUATIONAL" then { action := .RAISE }
    else { action := .RAISE }
  else if pystartswith t "CALL_VS_OPEN_" then { action := .CALL }
  else if t = "FOLD_VS_3BET" then { action := .FOLD }
  else if pystartswith t "CALL_VS_3BET_" then { action := .CALL }
  else if t = "4BET_VS_5BET_FOLD" then { action := .FOLD }
  else if pystartswith t "4BET_VS_5BET_" then { action := .RAISE }
  else if pystartswith t "SHOVE_VS_" then { action := .RAISE }
  else { action := .FOLD }

/-- The BTN row of `_OR_OPEN_SIZE_BY_POSITION` is 2.5 and every other
normalized position resolves to 3.0 (table rows or dictionary default). -/
theorem or_open_size_eq (p : String) :
    ((OR_OPEN_SIZE_BY_POSITION.lookup p).getD 3.0)
      = if p = "BTN" then 2.5 else 3.0 := by
  by_cases h1 : p = "EP"
  · subst h1; rfl
  by_cases h2 : p = "MP"
  · subst h2; rfl
  by_cases h3 : p = "CO"
  · subst h3; rfl
  by_cases h4 : p = "BTN"
  · subst h4; rfl
  by_cases h5 : p = "SB"
  · subst h5; rfl
  have e1 : (p == "EP") = false := beq_eq_false_iff_ne.mpr h1
  have e2 : (p == "MP") = false := beq_eq_false_iff_ne.mpr h2
  have e3 : (p == "CO") = false := beq_eq_false_iff_ne.mpr h3
  have e4 : (p == "BTN") = false := beq_eq_false_iff_ne.mpr h4
  have e5 : (p == "SB") = false := beq_eq_false_iff_ne.mpr h5
  simp [OR_OPEN_SIZE_BY_POSITION, List.lookup, e1, e2, e3, e4, e5, h4]

/-- C4: the open family of `resolve_expected_action`: `OPEN_RAISE` is a
Raise sized 2.5 bb on the Button and 3.0 bb on every other position (position
compared after the resolver's own strip/upper normalization);
`OPEN_RAISE_IF_FISH` is that Raise when `loose_player_exists` and Fold
otherwise; `OPEN_FOLD` is Fold; the four `SB_LIMP_CALL_LE_<N>BB` tags are
Limp actions carrying thresholds 3.0, 2.5, 2.25, 2.0 with
`followup_required = true`. -/
theorem C4_open_family (ctx : ProblemContext) :
    resolve_expected_action "OPEN_RAISE" ctx
        = { action := .RAISE,
            size_bb := some (if pyupper (pystrip ctx.position) = "BTN" then 2.5 else 3.0) }
      ∧ resolve_expected_action "OPEN_RAISE_IF_FISH" ctx
        = (if ctx.loose_player_exists then
            { action := .RAISE,
              size_bb := some (if pyupper (pystrip ctx.position) = "BTN" then 2.5 else 3.0) }
          else { action := .FOLD })
      ∧ resolve_expected_action "OPEN_FOLD" ctx = { action := .FOLD }
      ∧ resolve_expected_action "SB_LIMP_CALL_LE_3BB" ctx
        = { action := .LIMP, size_bb := some 3.0, followup_required := true }
      ∧ resolve_expected_action "SB_LIMP_CALL_LE_2_5BB" ctx
        = { action := .LIMP, size_bb := some 2.5, followup_required := true }
      ∧ resolve_expected_action "SB_LIMP_CALL_LE_2_25BB" ctx
        = { action := .LIMP, size_bb := some 2.25, followup_required := true }
      ∧ resolve_expected_action "SB_LIMP_CALL_LE_2BB" ctx
        = { action := .LIMP, size_bb := some 2.0, followup_required := true } := by
  refine ⟨?_, ?_, rfl, rfl, rfl, rfl, rfl⟩
  · rw [show resolve_expected_action "OPEN_RAISE" ctx
        = { action := .RAISE,
            size_bb := some ((OR_OPEN_SIZE_BY_POSITION.lookup
              (pyupper (pystrip ctx.position))).getD 3.0) } from rfl,
      or_open_size_eq]
  · rw [show resolve_expected_action "OPEN_RAISE_IF_FISH" ctx
        = (if ctx.loose_player_exists then
            { action := .RAISE,
              size_bb := some ((OR_OPEN_SIZE_BY_POSITION.lookup
                (pyupper (pystrip ctx.position))).getD 3.0) }
          else { action := .FOLD }) from rfl,
      or_open_size_eq]

/-- C5: the `3BET_VS_4BET_*` family: SHOVE/CALL/FOLD variants resolve to a
first-stage Raise with `followup_required = true` and follow-up expected
action Raise/Call/Fold respectively; the `_SITUATIONAL` variant is a plain
Raise with no follow-up. -/
theorem C5_threebet_vs_fourbet (ctx : ProblemContext) :
    resolve_expected_action "3BET_VS_4BET_SHOVE" ctx
        = { action := .RAISE, followup_required := true,
            followup_expected_action := some .RAISE }
      ∧ resolve_expected_action "3BET_VS_4BET_CALL" ctx
        = { action := .RAISE, followup_required := true,
            followup_expected_action := some .CALL }
      ∧ resolve_expected_action "3BET_VS_4BET_FOLD" ctx
        = { action := .RAISE, followup_required := true,
            followup_expected_action := some .FOLD }
      ∧ resolve_expected_action "3BET_VS_4BET_CALL_SITUATIONAL" ctx
        = { action := .RAISE, followup_required := false,
            followup_expected_action := none } :=
  ⟨rfl, rfl, rfl, rfl⟩

/-! ### Range repository (src/json_range_repository.py)

The repository state is embedded as normalized association lists (Python
dicts).  `build_repo` mirrors the normalization loops of
`JsonRangeRepository.__init__` on already-parsed documents (JSON/file I/O is
out of scope).  `dinsert` is dict assignment: it replaces an existing key. -/

/-- Dict assignment `m[k] = v` on an association list. -/
def dinsert {α : Type} (k : String) (v : α) (m : List (String × α)) :
    List (String × α) :=
  (k, v) :: m.filter (fun e => ¬ (e.1 = k))

/-- `_normalize_hand_to_key` in json_range_repository.py. -/
def normalize_hand_to_key (hand : String) : String :=
  pyremove_spaces (pyupper (pystrip hand))

/-- `_pos_sanitize` in json_range_repository.py: keep only `A`-`Z` and
`0`-`9` of the stripped upper-cased position (the regex `[^A-Z0-9]+`). -/
def pos_sanitize (pos : String) : String :=
  String.mk ((pyupper (pystrip pos)).toList.filter
    (fun c => ('A' ≤ c ∧ c ≤ 'Z') ∨ ('0' ≤ c ∧ c ≤ '9')))

/-- hand_key → tag map of one position. -/
abbrev HandMap := List (String × String)

/-- position → hand map of one kind. -/
abbrev PosMap := List (String × HandMap)

/-- The debug dict built by `get_tag_for_hand`. -/
structure RepoDebug where
  kind : String
  position : String
  hand_in : String
  hand_key : String
  found_kind : Bool
  found_position : Bool
  position_resolved : String
deriving DecidableEq, Repr

/-- The loaded `JsonRangeRepository` fields (`_ranges`, `_pos_alias`,
`_legend_by_kind`, `_tags_by_kind`, `_default_tag`, `_pack_sheet`). -/
structure RepoState where
  ranges : List (String × PosMap)
  pos_alias : List (String × List (String × String))
  legend_by_kind : List (String × List (String × Option String))
  tags_by_kind : List (String × PosMap)
  default_tag : String
  pack_sheet : String
deriving DecidableEq, Repr

/-- The parsed `ranges_pack.json` sections consumed by `__init__`. -/
structure RawPack where
  sheet : String
  default_tag : String
  legend_by_kind : List (String × List (String × Option String))
  tags : List (String × PosMap)

/-- `__init__` inner loop: normalize one position's hand map. -/
def build_hand_map (raw : HandMap) : HandMap :=
  raw.foldl (fun acc e => dinsert (normalize_hand_to_key e.1) (pystrip e.2) acc) []

/-- `__init__` loop over one kind: normalized position maps plus the position
alias dict (`alias[p] = p; alias[_pos_sanitize(p)] = p`). -/
def build_kind (pm : PosMap) : PosMap × List (String × String) :=
  pm.foldl
    (fun acc e =>
      let p := pyupper (pystrip e.1)
      (dinsert p (build_hand_map e.2) acc.1,
       dinsert (pos_sanitize p) p (dinsert p p acc.2)))
    ([], [])

/-- `__init__` legend normalization for one kind: tag stripped, color
stripped and upper-cased, `null` kept. -/
def build_legend (raw : List (String × Option String)) :
    List (String × Option String) :=
  raw.foldl (fun acc e => dinsert (pystrip e.1) (e.2.map (fun s => pyupper (pystrip s))) acc) []

/-- `__init__` pack-tags normalization for one position. -/
def build_tags_pos (raw : HandMap) : HandMap :=
  raw.foldl (fun acc e => dinsert (pyupper (pystrip e.1)) (pystrip e.2) acc) []

/-- `__init__` pack-tags normalization for one kind. -/
def build_tags_kind (pm : PosMap) : PosMap :=
  pm.foldl (fun acc e => dinsert (pyupper (pystrip e.1)) (build_tags_pos e.2) acc) []

/-- `JsonRangeRepository.__init__` on parsed documents: the `ranges` section
plus the optional pack (`legend_by_kind`, `tags`, `sheet`, `default_tag`). -/
def build_repo (rangesRaw : List (String × PosMap)) (pack : Option RawPack) :
    RepoState :=
  let ra := rangesRaw.foldl
    (fun acc e =>
      let k := pyupper (pystrip e.1)
      let kp := build_kind e.2
      (dinsert k kp.1 acc.1, dinsert k kp.2 acc.2))
    ([], [])
  match pack with
  | none => ⟨ra.1, ra.2, [], [], "FOLD", ""⟩
  | some pk =>
      let dt0 := if pk.default_tag = "" then "FOLD" else pk.default_tag
      let dt1 := pystrip dt0
      let dt := if dt1 = "" then "FOLD" else dt1
      let lg := pk.legend_by_kind.foldl
        (fun acc e => dinsert (pyupper (pystrip e.1)) (build_legend e.2) acc) []
      let tg := pk.tags.foldl
        (fun acc e => dinsert (pyupper (pystrip e.1)) (build_tags_kind e.2) acc) []
      ⟨ra.1, ra.2, lg, tg, dt, pk.sheet⟩

/-- `_resolve_position` in json_range_repository.py. -/
def resolve_position (st : RepoState) (kind position : String) : String :=
  let k := pyupper (pystrip kind)
  let p := pyupper (pystrip position)
  let a := (st.pos_alias.lookup k).getD []
  match a.lookup p with
  | some v => v
  | none =>
      match a.lookup (pos_sanitize p) with
      | some v => v
      | none => p

/-- `get_tag_for_hand` in json_range_repository.py.  Python falsiness of
dicts (`if not pos_map`) is emptiness of the association list. -/
def get_tag_for_hand (st : RepoState) (kind position hand : String) :
    String × RepoDebug :=
  let k_in := pyupper (pystrip kind)
  let p_in := pyupper (pystrip position)
  let hand_key := normalize_hand_to_key hand
  let dbg0 : RepoDebug :=
    { kind := k_in, position := p_in, hand_in := hand, hand_key := hand_key,
      found_kind := false, found_position := false, position_resolved := "" }
  match st.ranges.lookup k_in with
  | none => ("", dbg0)
  | some pos_map =>
      if pos_map.isEmpty then ("", dbg0)
      else
        let dbg1 := { dbg0 with found_kind := true }
        let p_resolved := resolve_position st k_in p_in
        let dbg2 := { dbg1 with position_resolved := p_resolved }
        match pos_map.lookup p_resolved with
        | none => ("", dbg2)
        | some hand_map =>
            let dbg3 := { dbg2 with found_position := true }
            if hand_map.isEmpty then ("", dbg3)
            else (pystrip ((hand_map.lookup hand_key).getD ""), dbg3)

/-- `_cards_to_hand_key` in json_range_repository.py.  Returns `none` where
Python raises `ValueError`. -/
def cards_to_hand_key (c1 c2 : String) : Option String :=
  let a0 := pystrip c1
  let b0 := pystrip c2
  let ab := if pylen a0 = 4 ∧ pylen b0 = 0 then (pytake a0 2, pydrop a0 2) else (a0, b0)
  if ¬ (pylen ab.1 = 2 ∧ pylen ab.2 = 2) then none
  else
    match ab.1.toList, ab.2.toList with
    | [ra, sa], [rb, sb] =>
        let r1 := ra.toUpper
        let s1 := sa.toLower
        let r2 := rb.toUpper
        let s2 := sb.toLower
        if r1 = r2 then some (String.mk [r1, r2])
        else
          let suited := s1 = s2
          match RANKS.indexOf? r1, RANKS.indexOf? r2 with
          | some i1, some i2 =>
              let hl := if i1 < i2 then (r1, r2) else (r2, r1)
              some (String.mk [hl.1, hl.2, if suited then 'S' else 'O'])
          | _, _ => none
    | _, _ => none

/-- Follows the spec's words (§4.1, §8): equal ranks give the pair key;
otherwise the stronger rank (by "AKQJT98765432" order) comes first, with
suffix `S` for equal suits and `O` otherwise.  Used only to compare
`cards_to_hand_key` against the spec. -/
def spec_cards_to_hand_key (r1 s1 r2 s2 : Char) : String :=
  if r1 = r2 then String.mk [r1, r2]
  else
    let i1 := (RANKS.indexOf? r1).getD 13
    let i2 := (RANKS.indexOf? r2).getD 13
    let hi := if i1 < i2 then r1 else r2
    let lo := if i1 < i2 then r2 else r1
    String.mk [hi, lo, if s1 = s2 then 'S' else 'O']

/-- The four suit characters of a card code. -/
def SUITS : List Char := ['s', 'h', 'd', 'c']

/-- C8: over all 52×51 ordered pairs of distinct cards (rank in `RANKS`,
suit in `SUITS`), `cards_to_hand_key` never fails, agrees with the spec's
pair/suited/offsuit canonicalization, and produces a well-formed hand key
(accepted by `hand_key_to_rc`); includes the three concrete examples. -/
theorem C8_cards_to_hand_key_total :
    (∀ r1 ∈ RANKS, ∀ s1 ∈ SUITS, ∀ r2 ∈ RANKS, ∀ s2 ∈ SUITS,
      (r1, s1) ≠ (r2, s2) →
        cards_to_hand_key (String.mk [r1, s1]) (String.mk [r2, s2])
            = some (spec_cards_to_hand_key r1 s1 r2 s2)
          ∧ (hand_key_to_rc (spec_cards_to_hand_key r1 s1 r2 s2)).isSome = true)
    ∧ cards_to_hand_key "Ks" "Jc" = some "KJO"
    ∧ cards_to_hand_key "Ks" "Js" = some "KJS"
    ∧ cards_to_hand_key "7h" "7d" = some "77" := by
  refine ⟨?_, rfl, rfl, rfl⟩
  decide

/-- Witness for C8 at the concrete pair ("Ks", "Jc"). -/
theorem C8_cards_to_hand_key_total_witness :
    cards_to_hand_key (String.mk ['K', 's']) (String.mk ['J', 'c'])
        = some (spec_cards_to_hand_key 'K' 's' 'J' 'c')
      ∧ (hand_key_to_rc (spec_cards_to_hand_key 'K' 's' 'J' 'c')).isSome = true :=
  C8_cards_to_hand_key_total.1 'K' (by decide) 's' (by decide) 'J' (by decide)
    'c' (by decide) (by decide)

/-- A repository loaded with an `OR` kind that declares only position `EP`. -/
def c1_repo : RepoState :=
  build_repo [("OR", [("EP", [("AKS", "OPEN_TIGHT")])])] none

/-- C1 counterexample: on a loaded repository,
`get_tag_for_hand("OR", "ZZ_UNKNOWN_POS", "AKs")` reports
`found_position = False` but returns the empty tag `""`, not `"FOLD"` as the
claim states. -/
theorem C1_counterexample :
    ¬ ((get_tag_for_hand c1_repo "OR" "ZZ_UNKNOWN_POS" "AKs").1 = "FOLD")
      ∧ (get_tag_for_hand c1_repo "OR" "ZZ_UNKNOWN_POS" "AKs").2.found_position = false
      ∧ (get_tag_for_hand c1_repo "OR" "ZZ_UNKNOWN_POS" "AKs").1 = "" := by
  decide

/-- C1 (amended): `get_tag_for_hand` is total (never raises) and degrades to
the *empty* tag `""` — not `"FOLD"` — whenever the kind, the position or the
hand key is absent: a non-empty tag implies kind and position were found and
the hand key was present.  The concrete lookup
`("OR", "ZZ_UNKNOWN_POS", "AKs")` returns `("", debug)` with
`debug.found_position = false`. -/
theorem C1_lookup_miss_empty_tag :
    (∀ st kind position hand,
      (get_tag_for_hand st kind position hand).1 ≠ "" →
        (get_tag_for_hand st kind position hand).2.found_kind = true
        ∧ (get_tag_for_hand st kind position hand).2.found_position = true
        ∧ ∃ pos_map hand_map tag,
            st.ranges.lookup (pyupper (pystrip kind)) = some pos_map
            ∧ pos_map.lookup (resolve_position st (pyupper (pystrip kind))
                (pyupper (pystrip position))) = some hand_map
            ∧ hand_map.lookup (normalize_hand_to_key hand) = some tag
            ∧ (get_tag_for_hand st kind position hand).1 = pystrip tag)
    ∧ get_tag_for_hand c1_repo "OR" "ZZ_UNKNOWN_POS" "AKs"
        = ("", { kind := "OR", position := "ZZ_UNKNOWN_POS", hand_in := "AKs",
                 hand_key := "AKS", found_kind := true, found_position := false,
                 position_resolved := "ZZ_UNKNOWN_POS" }) := by
  constructor
  · intro st kind position hand hne
    simp only [get_tag_for_hand] at hne ⊢
    cases hk : List.lookup (pyupper (pystrip kind)) st.ranges with
    | none => simp [hk] at hne
    | some pos_map =>
        simp only [hk] at hne ⊢
        by_cases hpe : pos_map.isEmpty
        · simp [hpe] at hne
        · simp only [hpe, if_false, Bool.false_eq_true] at hne ⊢
          cases hp : List.lookup (resolve_position st (pyupper (pystrip kind))
              (pyupper (pystrip position))) pos_map with
          | none => simp [hp] at hne
          | some hand_map =>
              simp only [hp] at hne ⊢
              by_cases hhe : hand_map.isEmpty
              · simp [hhe] at hne
              · simp only [hhe, if_false, Bool.false_eq_true] at hne ⊢
                cases ht : List.lookup (normalize_hand_to_key hand) hand_map with
                | none =>
                    simp only [ht] at hne
                    exact absurd (by decide) hne
                | some tag =>
                    simp only [ht] at hne ⊢
                    exact ⟨trivial, trivial, pos_map, hand_map, tag, rfl, hp, ht, rfl⟩
  · decide

/-- Witness for C1's amended theorem: a hit (`("OR", "EP", "AKs")` on
`c1_repo`) has a non-empty tag, so both debug flags are true and the hand key
is present. -/
theorem C1_lookup_miss_empty_tag_witness :
    (get_tag_for_hand c1_repo "OR" "EP" "AKs").2.found_kind = true
    ∧ (get_tag_for_hand c1_repo "OR" "EP" "AKs").2.found_position = true
    ∧ ∃ pos_map hand_map tag,
        c1_repo.ranges.lookup (pyupper (pystrip "OR")) = some pos_map
        ∧ pos_map.lookup (resolve_position c1_repo (pyupper (pystrip "OR"))
            (pyupper (pystrip "EP"))) = some hand_map
        ∧ hand_map.lookup (normalize_hand_to_key "AKs") = some tag
        ∧ (get_tag_for_hand c1_repo "OR" "EP" "AKs").1 = pystrip tag :=
  C1_lookup_miss_empty_tag.1 c1_repo "OR" "EP" "AKs" (by decide)

/-- One display cell of the popup grid (`RangeCellView`). -/
structure RangeCellView where
  label : String
  bg_rgb : String
deriving DecidableEq, Repr

/-- The popup grid (`RangeGridView`). -/
structure RangeGridView where
  kind : String
  pos : String
  sheet_name : String
  cells : List (List RangeCellView)
deriving DecidableEq, Repr

/-- Line 215 of json_range_repository.py: the tag displayed in the cell with
hand key `hk` — `(tag_map.get(hk) or default).strip() or default`. -/
def grid_cell_tag (st : RepoState) (tag_map : HandMap) (hk : String) : String :=
  let t0 := match tag_map.lookup hk with
    | some t => if t = "" then st.default_tag else t
    | none => st.default_tag
  let t1 := pystrip t0
  if t1 = "" then st.default_tag else t1

/-- Lines 217-218 of json_range_repository.py: the background for a tag —
`(legend.get(tag) or "FFFFFF").upper()`, i.e. the upper-cased legend color
when the tag is registered with a non-null, non-empty color, else white. -/
def legend_color (legend : List (String × Option String)) (tag : String) : String :=
  match (legend.lookup tag).getD none with
  | none => "FFFFFF"
  | some s => if s = "" then "FFFFFF" else pyupper s

/-- A Python `for i in range(n)` loop collecting `f i`, where each iteration
may raise (`none`): the whole loop fails if any iteration fails. -/
def optionMapRange {β : Type} (f : Nat → Option β) : Nat → Option (List β)
  | 0 => some []
  | n + 1 =>
      match optionMapRange f n, f n with
      | some l, some b => some (l ++ [b])
      | _, _ => none

/-- A successful `optionMapRange` has one element per index. -/
theorem optionMapRange_length {β : Type} (f : Nat → Option β) :
    ∀ n l, optionMapRange f n = some l → l.length = n := by
  intro n
  induction n with
  | zero =>
      intro l h
      simp only [optionMapRange, Option.some.injEq] at h
      rw [← h]
      rfl
  | succ n ih =>
      intro l h
      simp only [optionMapRange] at h
      cases hprev : optionMapRange f n with
      | none => rw [hprev] at h; exact absurd h (by simp)
      | some l2 =>
          rw [hprev] at h
          cases hb : f n with
          | none => rw [hb] at h; exact absurd h (by simp)
          | some b =>
              rw [hb] at h
              simp only [Option.some.injEq] at h
              rw [← h]
              simp [ih l2 hprev]

/-- `optionMapRange` succeeds exactly when every iteration succeeds. -/
theorem optionMapRange_isSome_iff {β : Type} (f : Nat → Option β) :
    ∀ n, (optionMapRange f n).isSome = true ↔ ∀ i, i < n → (f i).isSome = true := by
  intro n
  induction n with
  | zero => simp [optionMapRange]
  | succ n ih =>
      constructor
      · intro h i hi
        simp only [optionMapRange] at h
        cases hprev : optionMapRange f n with
        | none => rw [hprev] at h; simp at h
        | some l2 =>
            rw [hprev] at h
            cases hb : f n with
            | none => rw [hb] at h; simp at h
            | some b =>
                rcases Nat.lt_succ_iff_lt_or_eq.mp hi with hlt | heq
                · exact ih.mp (by rw [hprev]; rfl) i hlt
                · rw [heq, hb]; rfl
      · intro h
        simp only [optionMapRange]
        have hprev : (optionMapRange f n).isSome = true :=
          ih.mpr (fun i hi => h i (Nat.lt_succ_of_lt hi))
        obtain ⟨l2, hl2⟩ := Option.isSome_iff_exists.mp hprev
        obtain ⟨b, hb⟩ := Option.isSome_iff_exists.mp (h n (Nat.lt_succ_self n))
        rw [hl2, hb]
        rfl

/-- Indexing a successful `optionMapRange` gives the iteration's value. -/
theorem optionMapRange_getD {β : Type} (f : Nat → Option β) :
    ∀ n l, optionMapRange f n = some l →
      ∀ i, i < n → ∀ d, l.getD i d = (f i).getD d := by
  intro n
  induction n with
  | zero => intro l _ i hi; exact absurd hi (Nat.not_lt_zero i)
  | succ n ih =>
      intro l h i hi d
      simp only [optionMapRange] at h
      cases hprev : optionMapRange f n with
      | none => rw [hprev] at h; exact absurd h (by simp)
      | some l2 =>
          rw [hprev] at h
          cases hb : f n with
          | none => rw [hb] at h; exact absurd h (by simp)
          | some b =>
              rw [hb] at h
              simp only [Option.some.injEq] at h
              rw [← h]
              have hlen : l2.length = n := optionMapRange_length f n l2 hprev
              rcases Nat.lt_succ_iff_lt_or_eq.mp hi with hlt | heq
              · rw [List.getD_append _ _ _ _ (by rw [hlen]; exact hlt)]
                exact ih l2 hprev i hlt d
              · rw [heq, List.getD_append_right _ _ _ _ (by rw [hlen]), hlen]
                simp [hb]

/-- `rc_to_hand_key` succeeds exactly inside the 13×13 grid. -/
theorem rc_to_hand_key_isSome (r c : Nat) :
    (rc_to_hand_key r c).isSome = true ↔ (r < 13 ∧ c < 13) := by
  by_cases h : r < 13 ∧ c < 13
  · simp only [rc_to_hand_key, if_pos h]
    by_cases hrc : r = c <;> simp [hrc, h]
  · simp [rc_to_hand_key, h]

/-- The cell loop of `get_range_grid_view` (lines 210-224): every (r, c) of
`range(size) × range(size)` derives its hand key — where `rc_to_hand_key`
raises for coordinates outside the 13×13 grid — and renders
`(label, legend_color(grid_cell_tag))`. -/
def build_grid_cells (st : RepoState) (legend : List (String × Option String))
    (tag_map : HandMap) (size : Nat) : Option (List (List RangeCellView)) :=
  optionMapRange (fun r =>
    optionMapRange (fun c =>
      (rc_to_hand_key r c).map (fun hk =>
        RangeCellView.mk (if pylen hk = 2 then hk else pytake hk 2)
          (legend_color legend (grid_cell_tag st tag_map hk)))) size) size

/-- `get_range_grid_view` in json_range_repository.py.  `Except.error` where
Python raises (`RuntimeError` for a missing/invalid pack, `KeyError` for a
kind/pos absent from the pack's tags, and the `ValueError` escaping from
`rc_to_hand_key` when the requested size exceeds the 13×13 grid). -/
def get_range_grid_view (st : RepoState) (kind pos : String) (size : Nat) :
    Except String RangeGridView :=
  let k := pyupper (pystrip kind)
  let p_in := pyupper (pystrip pos)
  let p := resolve_position st k p_in
  if st.legend_by_kind.isEmpty || st.tags_by_kind.isEmpty then
    Except.error "[RANGE_POPUP] ranges_pack.json is missing or invalid."
  else
    match ((st.tags_by_kind.lookup k).getD []).lookup p with
    | none => Except.error "[RANGE_POPUP] kind/pos not found in pack"
    | some tag_map =>
        let legend := (st.legend_by_kind.lookup k).getD []
        let sheet := if st.pack_sheet = "" then "Datasheet" else st.pack_sheet
        match build_grid_cells st legend tag_map size with
        | none => Except.error "ValueError: rc out of range"
        | some cells => Except.ok (RangeGridView.mk k p sheet cells)

/-- The cell loop succeeds exactly when the requested size stays inside the
13×13 grid. -/
theorem build_grid_cells_isSome (st : RepoState)
    (legend : List (String × Option String)) (tag_map : HandMap) (size : Nat) :
    (build_grid_cells st legend tag_map size).isSome = true ↔ size ≤ 13 := by
  rw [build_grid_cells, optionMapRange_isSome_iff]
  constructor
  · intro h
    by_contra hgt
    push_neg at hgt
    have h13 := h 13 hgt
    rw [optionMapRange_isSome_iff] at h13
    have hcell := h13 13 hgt
    have hrc : (rc_to_hand_key 13 13).isSome = true := by
      cases hrc0 : rc_to_hand_key 13 13 with
      | none => rw [hrc0] at hcell; simp at hcell
      | some hk => rfl
    rw [rc_to_hand_key_isSome] at hrc
    exact absurd hrc.1 (by norm_num)
  · intro hle r hr
    rw [optionMapRange_isSome_iff]
    intro c hcn
    have hrc : (rc_to_hand_key r c).isSome = true :=
      (rc_to_hand_key_isSome r c).mpr
        ⟨Nat.lt_of_lt_of_le hr hle, Nat.lt_of_lt_of_le hcn hle⟩
    obtain ⟨hk, hhk⟩ := Option.isSome_iff_exists.mp hrc
    rw [hhk]
    rfl

/-- Each cell of a successful cell loop is the rendered
`(label, legend_color(grid_cell_tag))` of its own hand key. -/
theorem build_grid_cells_getD (st : RepoState)
    (legend : List (String × Option String)) (tag_map : HandMap) (size : Nat)
    (cells : List (List RangeCellView))
    (h : build_grid_cells st legend tag_map size = some cells)
    (r c : Nat) (hr : r < size) (hc : c < size) :
    (cells.getD r []).getD c (RangeCellView.mk "" "")
      = RangeCellView.mk
          (if pylen ((rc_to_hand_key r c).getD "") = 2 then (rc_to_hand_key r c).getD ""
            else pytake ((rc_to_hand_key r c).getD "") 2)
          (legend_color legend (grid_cell_tag st tag_map ((rc_to_hand_key r c).getD ""))) := by
  rw [build_grid_cells] at h
  have hrow := optionMapRange_getD _ size cells h r hr []
  have hsome := (optionMapRange_isSome_iff _ size).mp (by rw [h]; rfl) r hr
  obtain ⟨row, hrowe⟩ := Option.isSome_iff_exists.mp hsome
  rw [hrow, hrowe]
  simp only [Option.getD_some]
  have hcell := optionMapRange_getD _ size row hrowe c hc (RangeCellView.mk "" "")
  have hsome2 := (optionMapRange_isSome_iff _ size).mp (by rw [hrowe]; rfl) c hc
  have hrc : (rc_to_hand_key r c).isSome = true := by
    cases hrc0 : rc_to_hand_key r c with
    | none => rw [hrc0] at hsome2; simp at hsome2
    | some hk => rfl
  obtain ⟨hk, hhk⟩ := Option.isSome_iff_exists.mp hrc
  rw [hcell, hhk]
  rfl

/-- A pack whose legend covers only kind `ROL` while its tags cover kind
`OR`/`EP`. -/
def c9_pack : RawPack :=
  { sheet := "", default_tag := "",
    legend_by_kind := [("ROL", [("ROL_ALWAYS", some "9fc5e8")])],
    tags := [("OR", [("EP", [("AA", "OPEN_TIGHT")])])] }

/-- Repository loaded with `c9_pack`. -/
def c9_repo : RepoState :=
  build_repo [("OR", [("EP", [("AA", "OPEN_TIGHT")])])] (some c9_pack)

/-- C9 counterexample: `c9_repo` has *no* legend data for the requested kind
`OR` (only for `ROL`), yet `get_range_grid_view("OR", "EP")` does not raise —
it succeeds (the code only raises when the whole legend table or the whole
tags table is empty, or the kind/pos is absent from the pack's tags). -/
theorem C9_counterexample :
    ((c9_repo.legend_by_kind.lookup "OR").getD []).isEmpty = true
      ∧ (get_range_grid_view c9_repo "OR" "EP" 13).isOk = true := by
  decide

/-- C9 (amended): `get_range_grid_view` errors exactly when the pack's legend
table or tags table is entirely empty, the kind/pos is absent from the pack's
tags, or the requested size exceeds the 13×13 grid (the `ValueError` from
`rc_to_hand_key`); an empty legend for the requested kind alone does *not*
raise.  On success, every cell's background equals `legend_color` of that
cell's own tag (`grid_cell_tag`); and `legend_color` is the upper-cased
legend color registered for the tag when present with a non-null, non-empty
color, and the default white `"FFFFFF"` when the tag is absent from the
legend or its color is null/empty — never any other color. -/
theorem C9_grid_view_colors :
    (∀ st kind pos size,
      (get_range_grid_view st kind pos size).isOk = false
        ↔ (st.legend_by_kind.isEmpty = true ∨ st.tags_by_kind.isEmpty = true
            ∨ ((st.tags_by_kind.lookup (pyupper (pystrip kind))).getD []).lookup
                (resolve_position st (pyupper (pystrip kind)) (pyupper (pystrip pos)))
              = none
            ∨ 13 < size))
    ∧ (∀ st kind pos size grid tag_map r c,
        get_range_grid_view st kind pos size = Except.ok grid →
        ((st.tags_by_kind.lookup (pyupper (pystrip kind))).getD []).lookup
            (resolve_position st (pyupper (pystrip kind)) (pyupper (pystrip pos)))
          = some tag_map →
        r < size → c < size →
          ((grid.cells.getD r []).getD c (RangeCellView.mk "" "")).bg_rgb
            = legend_color ((st.legend_by_kind.lookup (pyupper (pystrip kind))).getD [])
                (grid_cell_tag st tag_map ((rc_to_hand_key r c).getD "")))
    ∧ (∀ (legend : List (String × Option String)) (tag : String),
        (∃ col, legend.lookup tag = some (some col) ∧ ¬ col = ""
            ∧ legend_color legend tag = pyupper col)
        ∨ ((legend.lookup tag = none ∨ legend.lookup tag = some none
              ∨ legend.lookup tag = some (some ""))
            ∧ legend_color legend tag = "FFFFFF")) := by
  refine ⟨?_, ?_, ?_⟩
  · intro st kind pos size
    simp only [get_range_grid_view]
    cases hle : st.legend_by_kind.isEmpty with
    | true => simp [hle, Except.isOk, Except.toBool]
    | false =>
        cases hte : st.tags_by_kind.isEmpty with
        | true => simp [hle, hte, Except.isOk, Except.toBool]
        | false =>
            simp only [hle, hte, Bool.or_self, Bool.false_eq_true, if_false,
              Bool.false_or]
            cases htm : ((st.tags_by_kind.lookup (pyupper (pystrip kind))).getD []).lookup
                (resolve_position st (pyupper (pystrip kind)) (pyupper (pystrip pos))) with
            | none => simp [htm, Except.isOk, Except.toBool]
            | some tag_map =>
                simp only [htm]
                cases hcells : build_grid_cells st
                    ((st.legend_by_kind.lookup (pyupper (pystrip kind))).getD [])
                    tag_map size with
                | none =>
                    have hsz : 13 < size := by
                      by_contra hnot
                      push_neg at hnot
                      have hsome : (build_grid_cells st
                          ((st.legend_by_kind.lookup (pyupper (pystrip kind))).getD [])
                          tag_map size).isSome = true :=
                        (build_grid_cells_isSome st _ tag_map size).mpr hnot
                      rw [hcells] at hsome
                      exact absurd hsome (by simp)
                    simp [hcells, Except.isOk, Except.toBool, hsz]
                | some cells =>
                    have hsz : ¬ 13 < size := by
                      intro h13
                      have hsome : (build_grid_cells st
                          ((st.legend_by_kind.lookup (pyupper (pystrip kind))).getD [])
                          tag_map size).isSome = true := by
                        rw [hcells]; rfl
                      rw [build_grid_cells_isSome] at hsome
                      omega
                    simp [hcells, Except.isOk, Except.toBool, hsz]
  · intro st kind pos size grid tag_map r c hok htm hr hc
    simp only [get_range_grid_view] at hok
    cases hcond : (st.legend_by_kind.isEmpty || st.tags_by_kind.isEmpty) with
    | true => rw [hcond] at hok; simp at hok
    | false =>
        rw [hcond] at hok
        simp only [Bool.false_eq_true, if_false] at hok
        simp only [htm] at hok
        cases hcells : build_grid_cells st
            ((st.legend_by_kind.lookup (pyupper (pystrip kind))).getD []) tag_map size with
        | none => rw [hcells] at hok; simp at hok
        | some cells =>
            rw [hcells] at hok
            simp only [Except.ok.injEq] at hok
            rw [← hok]
            show ((cells.getD r []).getD c (RangeCellView.mk "" "")).bg_rgb
              = legend_color ((st.legend_by_kind.lookup (pyupper (pystrip kind))).getD [])
                  (grid_cell_tag st tag_map ((rc_to_hand_key r c).getD ""))
            rw [build_grid_cells_getD st _ tag_map size cells hcells r c hr hc]
  · intro legend tag
    cases h : legend.lookup tag with
    | none => exact Or.inr ⟨Or.inl rfl, by simp [legend_color, h]⟩
    | some v =>
        cases v with
        | none => exact Or.inr ⟨Or.inr (Or.inl rfl), by simp [legend_color, h]⟩
        | some col =>
            by_cases hcol : col = ""
            · subst hcol
              exact Or.inr ⟨Or.inr (Or.inr rfl), by simp [legend_color, h]⟩
            · exact Or.inl ⟨col, rfl, hcol, by simp [legend_color, h, hcol]⟩

/-- Witness for C9's amended theorem at `c9_repo`, kind `OR`, position `EP`,
cell (0, 0): every hypothesis discharged concretely. -/
theorem C9_grid_view_colors_witness :
    ((((get_range_grid_view c9_repo "OR" "EP" 13).toOption.getD
        (RangeGridView.mk "" "" "" [])).cells.getD 0 []).getD 0
          (RangeCellView.mk "" "")).bg_rgb
      = legend_color ((c9_repo.legend_by_kind.lookup (pyupper (pystrip "OR"))).getD [])
          (grid_cell_tag c9_repo [("AA", "OPEN_TIGHT")] ((rc_to_hand_key 0 0).getD "")) :=
  C9_grid_view_colors.2.1 c9_repo "OR" "EP" 13
    ((get_range_grid_view c9_repo "OR" "EP" 13).toOption.getD (RangeGridView.mk "" "" "" []))
    [("AA", "OPEN_TIGHT")] 0 0 (by rfl) (by decide) (by norm_num) (by norm_num)

/-! ### Judge (src/juego_judge.py)

`JudgeResult.debug` is a dict in Python; the embedding keeps the entries the
engine and the claims read (`tag`, `detail_tag`, `expected_tag` all hold the
raw tag, so a single `tag` field stands for the three).  Display-only debug
entries (`reason` strings, the `_parse_bb_from_tag` numbers) are omitted. -/

/-- `A_FOLD` in juego_judge.py. -/
def A_FOLD : String := "FOLD"

/-- `A_RAISE` in juego_judge.py. -/
def A_RAISE : String := "RAISE"

/-- `A_CALL` in juego_judge.py. -/
def A_CALL : String := "CALL"

/-- `A_LIMP_CALL` in juego_judge.py. -/
def A_LIMP_CALL : String := "LIMP_CALL"

/-- `A_CHECK` in juego_judge.py. -/
def A_CHECK : String := "CHECK"

/-- `_norm_ws` in juego_judge.py. -/
def norm_ws (s : String) : String := pystrip (pyreplace_nbsp s)

/-- `_norm_tag` in juego_judge.py. -/
def norm_tag (tag : String) : String := pyupper (norm_ws tag)

/-- `_norm_user_action` in juego_judge.py. -/
def norm_user_action (user_action kind : String) : String :=
  let ua := pyupper (norm_ws user_action)
  if ua = "" ∨ ua = A_FOLD then A_FOLD
  else if pystartswith ua "OPEN" || pystartswith ua "RAISE" || pystartswith ua "3BET"
      || pystartswith ua "4BET" || pystartswith ua "SHOVE" then A_RAISE
  else if ua = "CALL" ∨ ua = "CHECK_CALL" ∨ ua = "LIMP" ∨ ua = A_LIMP_CALL then
    if kind = "OR_SB" then A_LIMP_CALL
    else if kind = "CC_3BET" ∨ kind = "3BET_VS_COLD4BET" ∨ kind = "CALL_3BET_4BET"
        ∨ kind = "CC_3BET_MULTI" then A_CALL
    else A_CALL
  else if ua = A_CHECK then A_CHECK
  else ua

/-- `_expected_action_or` in juego_judge.py. -/
def expected_action_or (tag_upper : String) (loose : Bool) : String :=
  if loose then
    if tag_upper = "OPEN_TIGHT" ∨ tag_upper = "OPEN_LOOSE" then A_RAISE else A_FOLD
  else if tag_upper = "OPEN_TIGHT" then A_RAISE else A_FOLD

/-- `_expected_action_or_sb` in juego_judge.py. -/
def expected_action_or_sb (tag_upper : String) : String :=
  if pystartswith tag_upper "OPEN_" then A_RAISE
  else if pystartswith tag_upper "LIMP_CALL_" then A_LIMP_CALL
  else A_FOLD

/-- `_expected_action_3bet` in juego_judge.py. -/
def expected_action_3bet (tag_upper : String) : String :=
  if pystartswith tag_upper "CALL_VS_OPEN" || pystartswith tag_upper "CALL_VS_3BET"
      || pystartswith tag_upper "CALL_" then A_CALL
  else if pystartswith tag_upper "FOLD" then A_FOLD
  else if pycontains tag_upper "3BET" || pycontains tag_upper "4BET"
      || pycontains tag_upper "SHOVE" then A_RAISE
  else A_FOLD

/-- `_expected_action_rol` in juego_judge.py: `(expected_action,
expected_raise_size_bb)`. -/
def expected_action_rol (position tag_upper : String) (loose : Bool) :
    String × Option ℚ :=
  let pos := norm_ws position
  if pos = "BBvsSB" then
    if tag_upper = "ROL_ALWAYS" then (A_RAISE, some 4.0) else (A_CHECK, none)
  else if tag_upper = "ROL_ALWAYS" then (A_RAISE, some 5.0)
  else if tag_upper = "OVERLIMP_VS_FISH" then (A_CALL, none)
  else if tag_upper = "ROL_VS_FISH" then
    (if loose then (A_CALL, none) else (A_FOLD, none))
  else (A_FOLD, none)

/-- `JudgeResult` plus the debug entries the engine reads. -/
structure JudgeResult where
  action : String
  correct : Bool
  tag : String
  tag_upper : String
  user_action : String
  expected_action : String
  expected_raise_size_bb : Option ℚ := none
  repo_debug : RepoDebug
deriving DecidableEq, Repr

/-- `JUEGOJudge.judge_or` (the repository is the `repo` handed to the judge's
constructor; `_repo_get_tag` is the identity on our typed tuple). -/
def judge_or (repo : RepoState) (position hand user_action : String) (loose : Bool) :
    JudgeResult :=
  let kind := "OR"
  let td := get_tag_for_hand repo kind position hand
  let tag_u := norm_tag td.1
  let expected := expected_action_or tag_u loose
  let ua := norm_user_action user_action kind
  { action := expected, correct := ua == expected, tag := td.1, tag_upper := tag_u,
    user_action := ua, expected_action := expected, repo_debug := td.2 }

/-- `JUEGOJudge.judge_or_sb`. -/
def judge_or_sb (repo : RepoState) (position hand user_action : String) (loose : Bool) :
    JudgeResult :=
  let kind := "OR_SB"
  let td := get_tag_for_hand repo kind position hand
  let tag_u := norm_tag td.1
  let expected := expected_action_or_sb tag_u
  let ua := norm_user_action user_action kind
  { action := expected, correct := ua == expected, tag := td.1, tag_upper := tag_u,
    user_action := ua, expected_action := expected, repo_debug := td.2 }

/-- `JUEGOJudge.judge_3bet` (its kind is `CC_3BET`). -/
def judge_3bet (repo : RepoState) (position hand user_action : String) (loose : Bool) :
    JudgeResult :=
  let kind := "CC_3BET"
  let td := get_tag_for_hand repo kind position hand
  let tag_u := norm_tag td.1
  let expected := expected_action_3bet tag_u
  let ua := norm_user_action user_action kind
  { action := expected, correct := ua == expected, tag := td.1, tag_upper := tag_u,
    user_action := ua, expected_action := expected, repo_debug := td.2 }

/-- `JUEGOJudge.judge_rol`. -/
def judge_rol (repo : RepoState) (position hand user_action : String) (loose : Bool) :
    JudgeResult :=
  let kind := "ROL"
  let td := get_tag_for_hand repo kind position hand
  let tag_u := norm_tag td.1
  let er := expected_action_rol position tag_u loose
  let ua0 := norm_user_action user_action kind
  let ua := if ua0 = A_LIMP_CALL then A_CALL else ua0
  { action := er.1, correct := ua == er.1, tag := td.1, tag_upper := tag_u,
    user_action := ua, expected_action := er.1, expected_raise_size_bb := er.2,
    repo_debug := td.2 }

/-- `JUEGOJudge.judge_bb_iso`. -/
def judge_bb_iso (repo : RepoState) (position hand user_action : String)
    (limpers : Int) (loose : Bool) : JudgeResult :=
  let kind := "BB_ISO"
  let td := get_tag_for_hand repo kind position hand
  let tag_u := norm_tag td.1
  let expected := if pycontains tag_u "RAISE" || pystartswith tag_u "ISO"
    then A_RAISE else A_CHECK
  let ua := norm_user_action user_action kind
  { action := expected, correct := ua == expected, tag := td.1, tag_upper := tag_u,
    user_action := ua, expected_action := expected, repo_debug := td.2 }

/-- C7 counterexample: in the BBvsSB subcase with a loose opponent present,
the ROL "call vs fish" tag resolves to Check, not Call as the claim states. -/
theorem C7_counterexample :
    (expected_action_rol "BBvsSB" "ROL_VS_FISH" true).1 ≠ "CALL"
      ∧ expected_action_rol "BBvsSB" "ROL_VS_FISH" true = ("CHECK", none) := by
  exact ⟨by decide, rfl⟩

/-- C7 (amended): `ROL_ALWAYS` resolves to Raise 5 bb except in the `BBvsSB`
position where it is Raise 4 bb; `ROL_VS_FISH` resolves to Call with a loose
opponent and Fold otherwise in every *non*-`BBvsSB` position, but in `BBvsSB`
it resolves to Check regardless of looseness.  (The core resolver's
`ROL_CALL__VS_FISH` is Call-iff-loose in every context.) -/
theorem C7_rol_rules :
    (∀ position loose, expected_action_rol position "ROL_ALWAYS" loose
        = ("RAISE", some (if norm_ws position = "BBvsSB" then 4.0 else 5.0)))
    ∧ (∀ position loose, norm_ws position ≠ "BBvsSB" →
        expected_action_rol position "ROL_VS_FISH" loose
          = ((if loose then "CALL" else "FOLD"), none))
    ∧ (∀ loose, expected_action_rol "BBvsSB" "ROL_VS_FISH" loose = ("CHECK", none))
    ∧ (∀ ctx : ProblemContext, resolve_expected_action "ROL_CALL__VS_FISH" ctx
        = if ctx.loose_player_exists then { action := .CALL } else { action := .FOLD }) := by
  refine ⟨?_, ?_, fun loose => rfl, fun ctx => rfl⟩
  · intro position loose
    by_cases hp : norm_ws position = "BBvsSB" <;>
      simp [expected_action_rol, hp, A_RAISE, A_CALL, A_CHECK, A_FOLD]
  · intro position loose hp
    cases loose <;> simp [expected_action_rol, hp, A_RAISE, A_CALL, A_CHECK, A_FOLD]

/-- Witness for C7's amended theorem: position `BTN` with a loose opponent. -/
theorem C7_rol_rules_witness :
    expected_action_rol "BTN" "ROL_VS_FISH" true
      = ((if true then "CALL" else "FOLD"), none) :=
  C7_rol_rules.2.1 "BTN" true (by decide)

/-- An empty user action normalizes to `FOLD` for every kind. -/
theorem norm_user_action_of_empty (user_action : String)
    (h : norm_ws user_action = "") (kind : String) :
    norm_user_action user_action kind = "FOLD" := by
  simp only [norm_user_action, h]
  rfl

/-- C10: an empty or whitespace-only user action string is normalized to
`FOLD` and graded like an explicit fold: whenever a judge entry point's
expected action is Fold, the empty submission is judged correct, in all five
entry points. -/
theorem C10_empty_action_graded_as_fold
    (repo : RepoState) (position hand user_action : String) (loose : Bool)
    (limpers : Int) (h : norm_ws user_action = "") :
    ((judge_or repo position hand user_action loose).action = "FOLD" →
        (judge_or repo position hand user_action loose).correct = true)
    ∧ ((judge_or_sb repo position hand user_action loose).action = "FOLD" →
        (judge_or_sb repo position hand user_action loose).correct = true)
    ∧ ((judge_3bet repo position hand user_action loose).action = "FOLD" →
        (judge_3bet repo position hand user_action loose).correct = true)
    ∧ ((judge_rol repo position hand user_action loose).action = "FOLD" →
        (judge_rol repo position hand user_action loose).correct = true)
    ∧ ((judge_bb_iso repo position hand user_action limpers loose).action = "FOLD" →
        (judge_bb_iso repo position hand user_action limpers loose).correct = true) := by
  refine ⟨?_, ?_, ?_, ?_, ?_⟩ <;>
    · intro hact
      simp only [judge_or, judge_or_sb, judge_3bet, judge_rol, judge_bb_iso,
        norm_user_action_of_empty user_action h] at hact ⊢
      rw [hact]
      rfl

/-- Witness for C10: whitespace-only input on an empty repository (where
every tag is the miss default and the OR expectation is Fold). -/
theorem C10_empty_action_graded_as_fold_witness :
    ((judge_or (build_repo [] none) "EP" "AA" "  " false).action = "FOLD" →
        (judge_or (build_repo [] none) "EP" "AA" "  " false).correct = true)
    ∧ ((judge_or_sb (build_repo [] none) "EP" "AA" "  " false).action = "FOLD" →
        (judge_or_sb (build_repo [] none) "EP" "AA" "  " false).correct = true)
    ∧ ((judge_3bet (build_repo [] none) "EP" "AA" "  " false).action = "FOLD" →
        (judge_3bet (build_repo [] none) "EP" "AA" "  " false).correct = true)
    ∧ ((judge_rol (build_repo [] none) "EP" "AA" "  " false).action = "FOLD" →
        (judge_rol (build_repo [] none) "EP" "AA" "  " false).correct = true)
    ∧ ((judge_bb_iso (build_repo [] none) "EP" "AA" "  " 0 false).action = "FOLD" →
        (judge_bb_iso (build_repo [] none) "EP" "AA" "  " 0 false).correct = true) :=
  C10_empty_action_graded_as_fold (build_repo [] none) "EP" "AA" "  " false 0 (by decide)

/-! ### Engine (src/core/engine.py)

`SubmitResult.text` (Japanese display strings) is omitted: the claims read
only the flags, choices and verdicts.  Python `float(...)` on the user's
follow-up answer is an external primitive; `submit` takes it as the
`parse_float` parameter (`none` = `ValueError`). -/

/-- `ProblemType` in core/models.py. -/
inductive ProblemType
  | YOKOSAWA_OPEN
  | JUEGO_OR
  | JUEGO_OR_SB
  | JUEGO_ROL
  | JUEGO_BB_ISO
  | JUEGO_3BET
deriving DecidableEq, Repr

/-- `SBLimpFollowUpContext` in core/models.py. -/
structure SBLimpFollowUpContext where
  hand_key : String
  expected_max_bb : ℚ
  source_tag : String
deriving DecidableEq, Repr

/-- `OpenRaiseProblemContext` in core/models.py. -/
structure OpenRaiseProblemContext where
  hole_cards : String × String
  position : String
  open_size_bb : ℚ
  loose_player_exists : Bool
  excel_hand_key : String
  excel_position_key : String
  limpers : Int := 0
deriving DecidableEq, Repr

/-- `SubmitResult` in core/engine.py (without the display `text`). -/
structure SubmitResult where
  is_correct : Option Bool
  show_next_button : Bool
  show_followup_buttons : Bool
  hide_followup_buttons : Bool
  judge_result : Option JudgeResult := none
  followup_choices : Option (List ℚ) := none
  followup_prompt : Option String := none
deriving DecidableEq, Repr

/-- The mutable `PokerEngine` state touched by `submit`
(`current_problem`, `context`, `followup`, `_last_judge_result`). -/
structure EngineState where
  current_problem : Option ProblemType
  context : Option OpenRaiseProblemContext
  followup : Option SBLimpFollowUpContext
  last_judge_result : Option JudgeResult
deriving DecidableEq, Repr

/-- The fixed follow-up numeric choices `[2, 2.25, 2.5, 3]`. -/
def FOLLOWUP_CHOICES : List ℚ := [2, 2.25, 2.5, 3]

/-- The follow-up prompt text. -/
def FOLLOWUP_PROMPT : String :=
  "追加問題：BBのオープンに対して、何BBまでコールしますか？"

/-- `PokerEngine._parse_limp_tag_to_max_bb`: only tags beginning with
`LimpCx` (case-insensitive) parse; an optional trailing `o` is dropped. -/
def parse_limp_tag_to_max_bb (parse_float : String → Option ℚ) (tag : String) :
    Option ℚ :=
  if tag = "" then none
  else
    let t := pystrip tag
    if ¬ (pystartswith (pyupper t) "LIMPCX" = true) then none
    else
      let body0 := pystrip (pydrop t 6)
      let body := if pyendswith (pylower body0) "o" then pydroplast body0 else body0
      parse_float body

/-- `PokerEngine.submit`.  The judge dispatch inlines `JUEGOJudge` (the
concrete judge of this repository); `YOKOSAWA_OPEN`/`JUEGO_BB_ISO` fall into
the "unknown problem type" early return of the dispatch chain.  The engine
scans the judge debug keys `tag_upper`, `detail_tag`, `tag`, `expected_tag`
in that order for a non-empty tag; the latter three all hold the raw tag. -/
def submit (parse_float : String → Option ℚ) (repo : RepoState)
    (st : EngineState) (user_action : Option String) :
    SubmitResult × EngineState :=
  match user_action with
  | none =>
      ({ is_correct := none, show_next_button := false,
         show_followup_buttons := false, hide_followup_buttons := false }, st)
  | some ua_str =>
      let ua_raw := pyupper (pystrip ua_str)
      match st.followup with
      | some fu =>
          match parse_float ua_raw with
          | none =>
              ({ is_correct := none, show_next_button := false,
                 show_followup_buttons := true, hide_followup_buttons := false,
                 judge_result := st.last_judge_result,
                 followup_choices := some FOLLOWUP_CHOICES,
                 followup_prompt := some FOLLOWUP_PROMPT }, st)
          | some chosen =>
              let ok : Bool := decide (|chosen - fu.expected_max_bb| < 1e-9)
              ({ is_correct := some ok, show_next_button := true,
                 show_followup_buttons := false, hide_followup_buttons := true,
                 judge_result := st.last_judge_result },
               { st with followup := none })
      | none =>
          match st.current_problem with
          | none =>
              ({ is_correct := none, show_next_button := false,
                 show_followup_buttons := false, hide_followup_buttons := false }, st)
          | some prob =>
              match st.context with
              | none =>
                  ({ is_correct := none, show_next_button := false,
                     show_followup_buttons := false, hide_followup_buttons := false }, st)
              | some ctx =>
                  let allowed : List String :=
                    if prob = ProblemType.JUEGO_ROL then
                      ["FOLD", "RAISE", "CALL", "CHECK", "LIMP_CALL"]
                    else if prob = ProblemType.JUEGO_3BET then
                      ["FOLD", "RAISE", "CALL"]
                    else ["FOLD", "RAISE", "LIMP_CALL"]
                  if ¬ (allowed.contains ua_raw = true) then
                    ({ is_correct := none, show_next_button := false,
                       show_followup_buttons := false, hide_followup_buttons := false }, st)
                  else
                    let ua := if prob = ProblemType.JUEGO_ROL ∧ ua_raw = "LIMP_CALL"
                      then "CALL" else ua_raw
                    let result? : Option JudgeResult :=
                      match prob with
                      | ProblemType.JUEGO_OR =>
                          some (judge_or repo ctx.position ctx.excel_hand_key ua
                            ctx.loose_player_exists)
                      | ProblemType.JUEGO_OR_SB =>
                          some (judge_or_sb repo "SB" ctx.excel_hand_key ua false)
                      | ProblemType.JUEGO_3BET =>
                          some (judge_3bet repo ctx.position ctx.excel_hand_key ua
                            ctx.loose_player_exists)
                      | ProblemType.JUEGO_ROL =>
                          some (judge_rol repo ctx.position ctx.excel_hand_key ua
                            ctx.loose_player_exists)
                      | _ => none
                    match result? with
                    | none =>
                        ({ is_correct := none, show_next_button := false,
                           show_followup_buttons := false,
                           hide_followup_buttons := false }, st)
                    | some result =>
                        let st1 := { st with last_judge_result := some result }
                        let is_correct := result.correct
                        let tag :=
                          if result.tag_upper ≠ "" then result.tag_upper
                          else if result.tag ≠ "" then result.tag
                          else ""
                        let final : SubmitResult × EngineState :=
                          ({ is_correct := some is_correct, show_next_button := true,
                             show_followup_buttons := false,
                             hide_followup_buttons := true,
                             judge_result := some result }, st1)
                        if prob = ProblemType.JUEGO_OR_SB ∧ is_correct = true then
                          match parse_limp_tag_to_max_bb parse_float tag with
                          | some expected_max =>
                              let fu := SBLimpFollowUpContext.mk
                                ctx.excel_hand_key expected_max tag
                              ({ is_correct := none, show_next_button := false,
                                 show_followup_buttons := true,
                                 hide_followup_buttons := false,
                                 judge_result := some result,
                                 followup_choices := some FOLLOWUP_CHOICES,
                                 followup_prompt := some FOLLOWUP_PROMPT },
                               { st1 with followup := some fu })
                          | none => final
                        else final

/-- Repository whose `OR_SB` range tags the hand `AKo` with the current
limp-call vocabulary `LIMP_CALL_2_5_BB` (config.py, `REF_COLOR_CELLS`). -/
def c2_repo : RepoState :=
  build_repo [("OR_SB", [("SB", [("AKO", "LIMP_CALL_2_5_BB")])])] none

/-- The OR_SB question context for that hand. -/
def c2_ctx : OpenRaiseProblemContext :=
  { hole_cards := ("As", "Kd"), position := "SB", open_size_bb := 2.5,
    loose_player_exists := false, excel_hand_key := "AKo", excel_position_key := "SB" }

/-- Engine state awaiting the first answer of that OR_SB question. -/
def c2_state : EngineState :=
  { current_problem := some ProblemType.JUEGO_OR_SB, context := some c2_ctx,
    followup := none, last_judge_result := none }

/-- C2: at the failing input, the judge grades the first-stage `LIMP_CALL`
answer correct on tag `LIMP_CALL_2_5_BB` (a limp-call tag, whose expected
action is `LIMP_CALL`), yet `submit` resolves the question finally: no
follow-up is entered (`show_followup_buttons = false`, `followup` stays
`none`), because `_parse_limp_tag_to_max_bb` only recognizes the legacy
`LimpCx...` spelling. -/
theorem C2_correct_limp_call_enters_no_followup :
    (judge_or_sb c2_repo "SB" "AKo" "LIMP_CALL" false).tag = "LIMP_CALL_2_5_BB"
      ∧ (judge_or_sb c2_repo "SB" "AKo" "LIMP_CALL" false).expected_action = "LIMP_CALL"
      ∧ (judge_or_sb c2_repo "SB" "AKo" "LIMP_CALL" false).correct = true
      ∧ (submit (fun _ => none) c2_repo c2_state (some "LIMP_CALL")).1.is_correct
          = some true
      ∧ (submit (fun _ => none) c2_repo c2_state (some "LIMP_CALL")).1.show_followup_buttons
          = false
      ∧ (submit (fun _ => none) c2_repo c2_state (some "LIMP_CALL")).2.followup = none := by
  refine ⟨by decide, by decide, by decide, rfl, rfl, rfl⟩

/-- C6: with a follow-up pending, `submit` first normalizes the input
(strip/upper) and parses it as a number: on parse failure it returns the
pick-a-numeric-option response (choices `[2, 2.25, 2.5, 3]`, no verdict) and
leaves the engine state completely unchanged; on parse success it clears the
follow-up unconditionally, changes nothing else, and the result's verdict is
whether the chosen value is within `1e-9` of `expected_max_bb`. -/
theorem C6_followup_submit (parse_float : String → Option ℚ) (repo : RepoState)
    (st : EngineState) (fu : SBLimpFollowUpContext) (ua : String)
    (hfu : st.followup = some fu) :
    (parse_float (pyupper (pystrip ua)) = none →
      submit parse_float repo st (some ua)
        = ({ is_correct := none, show_next_button := false,
             show_followup_buttons := true, hide_followup_buttons := false,
             judge_result := st.last_judge_result,
             followup_choices := some FOLLOWUP_CHOICES,
             followup_prompt := some FOLLOWUP_PROMPT }, st))
    ∧ (∀ q, parse_float (pyupper (pystrip ua)) = some q →
      submit parse_float repo st (some ua)
        = ({ is_correct := some (decide (|q - fu.expected_max_bb| < 1e-9)),
             show_next_button := true, show_followup_buttons := false,
             hide_followup_buttons := true,
             judge_result := st.last_judge_result },
           { st with followup := none })) := by
  constructor
  · intro hp
    simp only [submit, hfu, hp]
  · intro q hp
    simp only [submit, hfu, hp]

/-- A pending follow-up expecting 2.5 bb from the legacy tag. -/
def c6_fu : SBLimpFollowUpContext :=
  { hand_key := "AKO", expected_max_bb := 2.5, source_tag := "LimpCx2.5o" }

/-- Engine state with that follow-up in flight. -/
def c6_state : EngineState :=
  { current_problem := some ProblemType.JUEGO_OR_SB, context := some c2_ctx,
    followup := some c6_fu, last_judge_result := none }

/-- A concrete stand-in for Python `float`: parses only "2.5". -/
def c6_parse : String → Option ℚ := fun s => if s = "2.5" then some 2.5 else none

/-- Witness for C6 at a concrete pending follow-up and parser. -/
theorem C6_followup_submit_witness :
    (c6_parse (pyupper (pystrip "2.5")) = none →
      submit c6_parse c2_repo c6_state (some "2.5")
        = ({ is_correct := none, show_next_button := false,
             show_followup_buttons := true, hide_followup_buttons := false,
             judge_result := c6_state.last_judge_result,
             followup_choices := some FOLLOWUP_CHOICES,
             followup_prompt := some FOLLOWUP_PROMPT }, c6_state))
    ∧ (∀ q, c6_parse (pyupper (pystrip "2.5")) = some q →
      submit c6_parse c2_repo c6_state (some "2.5")
        = ({ is_correct := some (decide (|q - c6_fu.expected_max_bb| < 1e-9)),
             show_next_button := true, show_followup_buttons := false,
             hide_followup_buttons := true,
             judge_result := c6_state.last_judge_result },
           { c6_state with followup := none })) :=
  C6_followup_submit c6_parse c2_repo c6_state c6_fu "2.5" rfl

end PreflopTrainer
